import Mathlib

/-!
Verification of the ad-hoc-miner mining pipeline.

This file shallowly embeds the parts of the repository relevant to its
specification claims:

* `src/sensibility/language/javascript/__init__.py` — the lexeme
  canonicalizer (`StringifyLexeme`), the `SafeSourceFile` context manager,
  and the `tokenize` / `check_syntax` adapter entry points.
* `src/sensibility/miner/parse_worker.py` — `parse_js`, `in_uplus_notation`,
  `clean_template`, and the `main` worker loop.

Python strings are modelled as `List Char` (a Python `str` is a sequence of
Unicode scalar values, as is a Lean `List Char`).  Fallible Python code is
modelled with `Except`, raised exceptions becoming `.error` values.  The
worker loop's effects are modelled as an event trace.
-/

/-- The backquote character U+0060, the template-literal quote delimiter. -/
def backquote : Char := Char.ofNat 96

/-- The left curly-brace character U+007B. -/
def lbrace : Char := Char.ofNat 123

/-- The right curly-brace character U+007D, the interpolation-close marker. -/
def rbrace : Char := Char.ofNat 125

/-- The two-character interpolation-open marker, Python `'$'+'\x7b'`. -/
def dollarBrace : List Char := ['$', lbrace]

/-- Python `s.startswith(pat)`: the first `pat.length` characters equal `pat`. -/
def pyStartsWith (pat l : List Char) : Bool :=
  decide (l.take pat.length = pat)

/-- Python `s.endswith(pat)`: the last `pat.length` characters equal `pat`. -/
def pyEndsWith (pat l : List Char) : Bool :=
  decide (l.drop (l.length - pat.length) = pat)

/-- Python right-aligned padding to width `w` with fill character `c`, the
semantics of a format spec such as `"04X"` (fill `'0'`) or `"5X"` (fill `' '`). -/
def pyPad (w : Nat) (c : Char) (l : List Char) : List Char :=
  List.replicate (w - l.length) c ++ l

/-- Faults raised by `StringifyLexeme` (javascript/__init__.py).
`unsupportedTokenKind` models the `TypeError` raised at line 177 when
`getattr` finds no per-kind method; `unhandledTemplate` models the
`TypeError` raised at line 216 for a malformed template shape;
`assertionFailed` models the `assert len(text) >= 2` at line 205. -/
inductive StrFault
| unsupportedTokenKind (name : String)
| unhandledTemplate (text : List Char)
| assertionFailed
deriving DecidableEq

/-- Embedding of `StringifyLexeme.Template` (javascript/__init__.py lines
204-216): classify a template-literal fragment by its delimiter shape.
The Python `if/elif` chain falls through to the final `raise` when the
start matches but neither end matches. -/
def stringifyTemplate (t : List Char) : Except StrFault (List Char) :=
  if t.length < 2 then .error .assertionFailed
  else if pyStartsWith [backquote] t then
    if pyEndsWith [backquote] t then .ok "<STANDALONE-TEMPLATE>".data
    else if pyEndsWith dollarBrace t then .ok "<TEMPLATE-HEAD>".data
    else .error (.unhandledTemplate t)
  else if pyStartsWith [rbrace] t then
    if pyEndsWith [backquote] t then .ok "<TEMPLATE-TAIL>".data
    else if pyEndsWith dollarBrace t then .ok "<TEMPLATE-MIDDLE>".data
    else .error (.unhandledTemplate t)
  else .error (.unhandledTemplate t)

/-- A raw lexer token as consumed by `StringifyLexeme.__call__`: the
Esprima kind (`token.name`, a string) and the literal text (`token.value`). -/
structure Lexeme where
  name : String
  value : List Char
deriving DecidableEq

/-- Embedding of `StringifyLexeme.__call__` and the per-kind methods
(javascript/__init__.py lines 173-216).  The Python code dispatches with
`getattr(self, token.name)` over the methods `Boolean`, `Identifier`,
`Keyword`, `Null`, `Numeric`, `Punctuator`, `String`, `RegularExpression`
and `Template`; an `AttributeError` (kind outside that method table) is
converted to the `TypeError` modelled by `unsupportedTokenKind`.
(`getattr` artifacts on inherited dunder attributes are not modelled;
the dispatch is over the class's own per-kind method table.) -/
def stringify_lexeme (tok : Lexeme) : Except StrFault (List Char) :=
  match tok.name with
  | "Boolean" => .ok tok.value
  | "Identifier" => .ok "<IDENTIFIER>".data
  | "Keyword" => .ok tok.value
  | "Null" => .ok "null".data
  | "Numeric" => .ok "<NUMBER>".data
  | "Punctuator" => .ok tok.value
  | "String" => .ok "<STRING>".data
  | "RegularExpression" => .ok "<REGEXP>".data
  | "Template" => stringifyTemplate tok.value
  | other => .error (.unsupportedTokenKind other)

/-- The token kinds for which `StringifyLexeme` defines a method. -/
def tokenAlphabet : List String :=
  ["Boolean", "Identifier", "Keyword", "Null", "Numeric", "Punctuator",
   "String", "RegularExpression", "Template"]

/-- Embedding of `clean_template` (parse_worker.py lines 111-125):
`end_trim` is 2 when the literal ends with the interpolation-open marker,
else 1, and the result is the Python slice `literal[1:-end_trim]`,
i.e. take everything up to `len - end_trim`, then drop the first character. -/
def clean_template (l : List Char) : List Char :=
  let end_trim : Nat := if pyEndsWith dollarBrace l then 2 else 1
  (l.take (l.length - end_trim)).drop 1

/-- The uppercase hexadecimal digit for `n < 16`, as produced by Python's
`X` format type. -/
def hexDigitChar (n : Nat) : Char :=
  if n < 10 then Char.ofNat (48 + n) else Char.ofNat (55 + n)

/-- Fuel-indexed most-significant-first hex expansion; `fuel ≥ n` suffices
since the argument shrinks by division by 16 each step. -/
def toHexAux : Nat → Nat → List Char
  | 0, _ => []
  | fuel + 1, n =>
    if n = 0 then [] else toHexAux fuel (n / 16) ++ [hexDigitChar (n % 16)]

/-- The uppercase hexadecimal digits of `n`, most significant first
(empty for `n = 0`; Python's `"X"` renders 0 as `"0"`, but
`in_uplus_notation` only ever renders it zero-padded to width 4, where the
two agree). -/
def toHexUpper (n : Nat) : List Char := toHexAux n n

/-- Embedding of `in_uplus_notation` (parse_worker.py lines 82-93): the code
point label, `"U+" + format(n, '5X')` (space-padded to width 5) for
`n > 0xFFFF`, and `"U+" + format(n, '04X')` (zero-padded to width 4)
otherwise. -/
def in_uplus_label (n : Nat) : List Char :=
  if 0xFFFF < n then "U+".data ++ pyPad 5 ' ' (toHexUpper n)
  else "U+".data ++ pyPad 4 '0' (toHexUpper n)

/-- The codepoint label as the spec words it (spec.md section 4.3): `U+`
followed by the uppercase hexadecimal value, zero-padded to 4 digits below
`0x10000` and to 5 digits at or above it. -/
def uplus_label_spec (n : Nat) : List Char :=
  "U+".data ++ pyPad (if 0x10000 ≤ n then 5 else 4) '0' (toHexUpper n)

/-- Faults escaping `parse_js` (parse_worker.py lines 47-79):
`parseError` is the module's `ParseError`; `errorReturnCode code` is the
`sh.ErrorReturnCode_<code>` exception that the `except sh.ErrorReturnCode_1`
clause does not catch when `code ≠ 1`. -/
inductive ShFault
| parseError
| errorReturnCode (code : Nat)
deriving DecidableEq

/-- Embedding of the subprocess-error classification in `parse_js`
(parse_worker.py lines 74-79).  The `node('parse-js', ...)` call raises
`sh.ErrorReturnCode_<n>` for exit status `n ≠ 0`; only
`sh.ErrorReturnCode_1` is caught and re-raised as `ParseError`; exit 0
yields the subprocess output (the subsequent `json.loads` of the success
path is outside the claims and kept abstract as the raw output). -/
def parse_js (exitCode : Nat) (stdout : List Char) : Except ShFault (List Char) :=
  if exitCode = 0 then .ok stdout
  else if exitCode = 1 then .error ShFault.parseError
  else .error (ShFault.errorReturnCode exitCode)

/-- A Python value passed as `source` to `tokenize` / `check_syntax`:
a `str`, a `bytes`, an already-open byte stream (an `IOBase` instance,
identified by an abstract stream id), or any other value (abstract
payload), the shape tested by the `isinstance` chain in
`SafeSourceFile.__enter__` (javascript/__init__.py lines 89-95). -/
inductive PySrc
| str (s : List Char)
| bytes (b : List Nat)
| stream (sid : Nat)
| other (v : Nat)
deriving DecidableEq

/-- Faults escaping the JavaScript adapter: `valueError` is the
`ValueError(self.source)` raised by `SafeSourceFile.__enter__` for an
unsupported source type; `calledProcessError code` is the
`subprocess.CalledProcessError` raised by `subprocess.run(check=True)`
in `_tokenize` for a non-zero exit status. -/
inductive JsFault
| valueError (src : PySrc)
| calledProcessError (code : Nat)
deriving DecidableEq

/-- Observable resource events of one `tokenize` / `check_syntax` call:
running the esprima subprocess, closing the adapter-owned transient
temporary file (`self._owned.close()`), and closing the caller's byte
stream (an event the source never emits: `SafeSourceFile.__exit__` closes
only `self._owned`). -/
inductive JsEv
| subprocess
| closeOwned
| closeForeign (sid : Nat)
deriving DecidableEq

/-- Embedding of `SafeSourceFile.__enter__` (javascript/__init__.py lines
89-97): `str` and `bytes` sources are wrapped into an adapter-owned
transient file via `synthetic_file` (result `true` = `self._owned` set);
an `IOBase` stream is used as-is (result `false` = `self._foreign` set);
any other value raises `ValueError` carrying the offending source. -/
def safeEnter : PySrc → Except JsFault Bool
  | .str _ => .ok true
  | .bytes _ => .ok true
  | .stream _ => .ok false
  | other => .error (.valueError other)

/-- Embedding of `SafeSourceFile.__exit__` (javascript/__init__.py lines
99-103): close `self._owned` when it was created here; a foreign stream is
only asserted non-null, never closed. -/
def safeExitEvents (owned : Bool) : List JsEv :=
  if owned then [JsEv.closeOwned] else []

/-- Embedding of `JavaScript.tokenize` (javascript/__init__.py lines
41-56) at the resource/fault level: enter the `SafeSourceFile` context
(raising `ValueError` before any subprocess for unsupported sources), run
`_tokenize` (`subprocess.run` with `check=True`, so any non-zero exit
raises `CalledProcessError`), and leave the context on every exit path.
The JSON decoding of the success path's stdout into `Token` values is
outside the claims and abstracted to `.ok ()`. -/
def tokenizeRun (src : PySrc) (exitCode : Nat) : List JsEv × Except JsFault Unit :=
  match safeEnter src with
  | .error f => ([], .error f)
  | .ok owned =>
    ([JsEv.subprocess] ++ safeExitEvents owned,
     if exitCode = 0 then .ok () else .error (JsFault.calledProcessError exitCode))

/-- Embedding of `JavaScript.check_syntax` (javascript/__init__.py lines
58-64): same context handling, but the subprocess runs with `check=False`
and the call returns `returncode == 0` instead of raising on non-zero. -/
def checkSyntaxRun (src : PySrc) (exitCode : Nat) : List JsEv × Except JsFault Bool :=
  match safeEnter src with
  | .error f => ([], .error f)
  | .ok owned =>
    ([JsEv.subprocess] ++ safeExitEvents owned, .ok (decide (exitCode = 0)))

/-- Observable events of one iteration of the worker loop
(parse_worker.py `main`, lines 174-204), all performed on the single
dequeued identifier: `pushError` is `aborted << file_hash` (the error
channel), `setFailure` is `db.set_failure`, `persistSuccess` is
`db.add_parsed_source`, `insertCount` is `insert_count(...)`, `ack` is
`worker.acknowledge`. -/
inductive WorkerEv
| pushError
| setFailure
| persistSuccess
| insertCount
| ack
deriving DecidableEq, Fintype

/-- How one iteration of the worker loop ends: fall through to the next
iteration, `break` cleanly out of the loop from the idle
`KeyboardInterrupt` handler, `break` from the mid-flight
`KeyboardInterrupt` handler, or crash (an exception propagates out of
`main`, terminating the loop). -/
inductive Control
| contLoop
| breakClean
| breakFlight
| crash
deriving DecidableEq, Fintype

/-- The statement of the loop body at whose start a `KeyboardInterrupt`
(cancellation signal) fires, when one fires at all: the blocking
`worker.get()` (line 176), the `file_hash.decode` / `logger.debug`
statements outside any handler (lines 181-183), the four statements of
the guarded `try` block (lines 186-189), or the statements of the
`ParseError` and bare-`except` handlers (lines 195-196, 199-200) and the
success-path acknowledgment (line 203).  At most one signal per iteration
is modelled. -/
inductive IntrPoint
| atGet
| atDecode
| atGetSource
| atParse
| atPersist
| atInsertCount
| atSetFailure
| atAckParseErr
| atPushOther
| atAckOther
| atAckSuccess
deriving DecidableEq, Fintype

/-- The outcome of the `parse_js` call when it is reached and not
interrupted: success, `ParseError`, or any other exception (for example
an uncaught `sh.ErrorReturnCode_2`). -/
inductive StepOutcome
| ok
| parseErr
| otherErr
deriving DecidableEq, Fintype

/-- The environment of one iteration of the worker loop: where (if
anywhere) the cancellation signal fires, and whether each effectful step
that is reached succeeds or raises an unexpected exception. -/
structure IterEnv where
  intr : Option IntrPoint
  getSourceOk : Bool
  parseRes : StepOutcome
  persistOk : Bool
  countOk : Bool
deriving DecidableEq, Fintype

/-- The `except ParseError` handler (parse_worker.py lines 194-197):
`db.set_failure(file_hash)` then `worker.acknowledge(file_hash)`, then
continue the loop.  A signal firing at either statement propagates
uncaught (it is raised inside a handler) and crashes the loop. -/
def handlerParseErr (pre : List WorkerEv) (e : IterEnv) : List WorkerEv × Control :=
  if e.intr = some .atSetFailure then (pre, .crash)
  else if e.intr = some .atAckParseErr then (pre ++ [.setFailure], .crash)
  else (pre ++ [.setFailure, .ack], .contLoop)

/-- The bare `except` handler (parse_worker.py lines 198-201):
`aborted << file_hash` then `worker.acknowledge(file_hash)`, then
continue the loop.  A signal firing at either statement propagates
uncaught and crashes the loop. -/
def handlerOther (pre : List WorkerEv) (e : IterEnv) : List WorkerEv × Control :=
  if e.intr = some .atPushOther then (pre, .crash)
  else if e.intr = some .atAckOther then (pre ++ [.pushError], .crash)
  else (pre ++ [.pushError, .ack], .contLoop)

/-- Embedding of one iteration of the worker loop (parse_worker.py lines
174-204), returning the events performed on the dequeued identifier and
how the iteration ends.  A signal at the blocking `worker.get()` is
caught by the idle handler (clean break, nothing dequeued); a signal at
the decode/log statements is uncaught (they sit outside both `try`
blocks); a signal at any of the four guarded statements is caught by the
mid-flight handler, which publishes the identifier to the error channel
and breaks without acknowledging; otherwise the `ParseError`, bare-except
or else branch runs as in the source. -/
def runIteration (e : IterEnv) : List WorkerEv × Control :=
  if e.intr = some .atGet then ([], .breakClean)
  else if e.intr = some .atDecode then ([], .crash)
  else if e.intr = some .atGetSource then ([.pushError], .breakFlight)
  else if e.getSourceOk = false then handlerOther [] e
  else if e.intr = some .atParse then ([.pushError], .breakFlight)
  else
    match e.parseRes with
    | .parseErr => handlerParseErr [] e
    | .otherErr => handlerOther [] e
    | .ok =>
      if e.intr = some .atPersist then ([.pushError], .breakFlight)
      else if e.persistOk = false then handlerOther [] e
      else if e.intr = some .atInsertCount then ([.persistSuccess, .pushError], .breakFlight)
      else if e.countOk = false then handlerOther [.persistSuccess] e
      else if e.intr = some .atAckSuccess then ([.persistSuccess, .insertCount], .crash)
      else ([.persistSuccess, .insertCount, .ack], .contLoop)

lemma endsWith_dollarBrace_not_backquote (t : List Char)
    (h : pyEndsWith dollarBrace t = true) : pyEndsWith [backquote] t = false := by
  have h' : List.drop (t.length - 2) t = ['$', lbrace] := of_decide_eq_true h
  have hlen : 2 ≤ t.length := by
    have hl : t.length - (t.length - 2) = 2 := by
      simpa using congrArg List.length h'
    omega
  have h2 : List.drop (t.length - 1) t = [lbrace] := by
    have h3 := congrArg (List.drop 1) h'
    rw [List.drop_drop] at h3
    have e1 : t.length - 2 + 1 = t.length - 1 := by omega
    rw [e1] at h3
    simpa using h3
  apply decide_eq_false
  intro hc
  simp only [List.length_cons, List.length_nil, Nat.zero_add] at hc
  rw [h2] at hc
  exact absurd hc (by decide)

lemma startsWith_rbrace_not_backquote (t : List Char)
    (h : pyStartsWith [rbrace] t = true) : pyStartsWith [backquote] t = false := by
  have h' : List.take 1 t = [rbrace] := of_decide_eq_true h
  apply decide_eq_false
  intro hc
  simp only [List.length_cons, List.length_nil, Nat.zero_add] at hc
  rw [h'] at hc
  exact absurd hc (by decide)

lemma stringifyTemplate_standalone (t : List Char) (h2 : ¬ t.length < 2)
    (hs : pyStartsWith [backquote] t = true) (he : pyEndsWith [backquote] t = true) :
    stringifyTemplate t = .ok "<STANDALONE-TEMPLATE>".data := by
  simp [stringifyTemplate, h2, hs, he]

lemma stringifyTemplate_head (t : List Char) (h2 : ¬ t.length < 2)
    (hs : pyStartsWith [backquote] t = true) (he : pyEndsWith dollarBrace t = true) :
    stringifyTemplate t = .ok "<TEMPLATE-HEAD>".data := by
  simp [stringifyTemplate, h2, hs, he, endsWith_dollarBrace_not_backquote t he]

lemma stringifyTemplate_tail (t : List Char) (h2 : ¬ t.length < 2)
    (hs : pyStartsWith [rbrace] t = true) (he : pyEndsWith [backquote] t = true) :
    stringifyTemplate t = .ok "<TEMPLATE-TAIL>".data := by
  simp [stringifyTemplate, h2, hs, he, startsWith_rbrace_not_backquote t hs]

lemma stringifyTemplate_middle (t : List Char) (h2 : ¬ t.length < 2)
    (hs : pyStartsWith [rbrace] t = true) (he : pyEndsWith dollarBrace t = true) :
    stringifyTemplate t = .ok "<TEMPLATE-MIDDLE>".data := by
  simp [stringifyTemplate, h2, hs, he, startsWith_rbrace_not_backquote t hs,
    endsWith_dollarBrace_not_backquote t he]

lemma stringifyTemplate_err (t : List Char) (h2 : ¬ t.length < 2)
    (h : ¬((pyStartsWith [backquote] t = true ∨ pyStartsWith [rbrace] t = true) ∧
           (pyEndsWith [backquote] t = true ∨ pyEndsWith dollarBrace t = true))) :
    stringifyTemplate t = .error (.unhandledTemplate t) := by
  cases hs1 : pyStartsWith [backquote] t <;> cases hs2 : pyStartsWith [rbrace] t <;>
    cases he1 : pyEndsWith [backquote] t <;> cases he2 : pyEndsWith dollarBrace t <;>
      simp_all [stringifyTemplate]

lemma stringify_lexeme_template (t : List Char) :
    stringify_lexeme ⟨"Template", t⟩ = stringifyTemplate t := rfl

lemma drop_one_take_sub_one (l : List Char) :
    (l.take (l.length - 1)).drop 1 = (l.drop 1).dropLast := by
  rw [List.drop_take, List.dropLast_eq_take, List.length_drop]

lemma drop_one_take_sub_two (l : List Char) :
    (l.take (l.length - 2)).drop 1 = ((l.drop 1).dropLast).dropLast := by
  simp only [List.drop_take, List.dropLast_eq_take, List.take_take,
    List.length_take, List.length_drop]
  congr 1
  omega

/-- C2 counterexample: an external-parser exit status of 2 is not
converted to `ParseError` by `parse_js` — `except sh.ErrorReturnCode_1`
only catches exit status 1, so `sh.ErrorReturnCode_2` propagates as a
different, unexpected fault. -/
theorem C2_counterexample :
    parse_js 2 [] = .error (ShFault.errorReturnCode 2) ∧
    ShFault.errorReturnCode 2 ≠ ShFault.parseError := ⟨rfl, by decide⟩

/-- C2 (amended): an external-parser exit status of exactly 1 raises
`ParseError`; any other non-zero exit status propagates uncaught as the
`sh.ErrorReturnCode_<n>` fault, and the JavaScript adapter's `_tokenize`
(run with `check=True`) likewise propagates every non-zero exit status as
`CalledProcessError`, not as a syntax error. -/
theorem C2_amended_exit_classification (ec : Nat) (out s : List Char) :
    parse_js 1 out = .error ShFault.parseError ∧
    (ec ≠ 0 → ec ≠ 1 → parse_js ec out = .error (ShFault.errorReturnCode ec)) ∧
    (ec ≠ 0 → (tokenizeRun (PySrc.str s) ec).2 = .error (JsFault.calledProcessError ec)) := by
  refine ⟨rfl, fun h0 h1 => ?_, fun h0 => ?_⟩
  · simp [parse_js, h0, h1]
  · simp [tokenizeRun, safeEnter, h0]

/-- C2 witness: at exit status 2 with empty output, `parse_js` yields the
uncaught `ErrorReturnCode_2` fault and `_tokenize` the
`CalledProcessError` fault. -/
theorem C2_amended_witness :
    parse_js 2 [] = .error (ShFault.errorReturnCode 2) ∧
    (tokenizeRun (PySrc.str []) 2).2 = .error (JsFault.calledProcessError 2) :=
  ⟨(C2_amended_exit_classification 2 [] []).2.1 (by decide) (by decide),
   (C2_amended_exit_classification 2 [] []).2.2 (by decide)⟩

/-- C4: for every Template token text of length at least 2, the
canonicalizer classifies it by delimiter shape — backtick…backtick is
`<STANDALONE-TEMPLATE>`, backtick…`$\x7b` is `<TEMPLATE-HEAD>`,
`\x7d`…backtick is `<TEMPLATE-TAIL>`, `\x7d`…`$\x7b` is
`<TEMPLATE-MIDDLE>`, and any other shape raises the fatal
malformed-template error. -/
theorem C4_template_shapes (t : List Char) (h2 : 2 ≤ t.length) :
    (pyStartsWith [backquote] t = true → pyEndsWith [backquote] t = true →
      stringify_lexeme ⟨"Template", t⟩ = .ok "<STANDALONE-TEMPLATE>".data) ∧
    (pyStartsWith [backquote] t = true → pyEndsWith dollarBrace t = true →
      stringify_lexeme ⟨"Template", t⟩ = .ok "<TEMPLATE-HEAD>".data) ∧
    (pyStartsWith [rbrace] t = true → pyEndsWith [backquote] t = true →
      stringify_lexeme ⟨"Template", t⟩ = .ok "<TEMPLATE-TAIL>".data) ∧
    (pyStartsWith [rbrace] t = true → pyEndsWith dollarBrace t = true →
      stringify_lexeme ⟨"Template", t⟩ = .ok "<TEMPLATE-MIDDLE>".data) ∧
    (¬((pyStartsWith [backquote] t = true ∨ pyStartsWith [rbrace] t = true) ∧
       (pyEndsWith [backquote] t = true ∨ pyEndsWith dollarBrace t = true)) →
      stringify_lexeme ⟨"Template", t⟩ = .error (StrFault.unhandledTemplate t)) := by
  have h2' : ¬ t.length < 2 := by omega
  refine ⟨fun hs he => ?_, fun hs he => ?_, fun hs he => ?_, fun hs he => ?_,
    fun h => ?_⟩ <;> rw [stringify_lexeme_template]
  exacts [stringifyTemplate_standalone t h2' hs he, stringifyTemplate_head t h2' hs he,
    stringifyTemplate_tail t h2' hs he, stringifyTemplate_middle t h2' hs he,
    stringifyTemplate_err t h2' h]

/-- C4 witness: the standalone fragment and the tail fragment canonicalize
to their respective symbols. -/
theorem C4_witness :
    stringify_lexeme ⟨"Template", [backquote, backquote]⟩ = .ok "<STANDALONE-TEMPLATE>".data ∧
    stringify_lexeme ⟨"Template", [rbrace, backquote]⟩ = .ok "<TEMPLATE-TAIL>".data :=
  ⟨(C4_template_shapes [backquote, backquote] (by decide)).1 (by decide) (by decide),
   (C4_template_shapes [rbrace, backquote] (by decide)).2.2.1 (by decide) (by decide)⟩

/-- C5: the canonicalizer maps every token to its canonical symbol by
kind — Boolean, Keyword and Punctuator verbatim; Null to `null`;
Identifier to `<IDENTIFIER>`; Numeric to `<NUMBER>`; String to `<STRING>`;
RegularExpression to `<REGEXP>` — deterministically (it is a pure function
of the token alone). -/
theorem C5_kind_mapping (v : List Char) :
    stringify_lexeme ⟨"Boolean", v⟩ = .ok v ∧
    stringify_lexeme ⟨"Keyword", v⟩ = .ok v ∧
    stringify_lexeme ⟨"Punctuator", v⟩ = .ok v ∧
    stringify_lexeme ⟨"Null", v⟩ = .ok "null".data ∧
    stringify_lexeme ⟨"Identifier", v⟩ = .ok "<IDENTIFIER>".data ∧
    stringify_lexeme ⟨"Numeric", v⟩ = .ok "<NUMBER>".data ∧
    stringify_lexeme ⟨"String", v⟩ = .ok "<STRING>".data ∧
    stringify_lexeme ⟨"RegularExpression", v⟩ = .ok "<REGEXP>".data :=
  ⟨rfl, rfl, rfl, rfl, rfl, rfl, rfl, rfl⟩

/-- C6: `clean_template` removes the first character always, and the last
character — or the last two when the text ends with the interpolation-open
marker `$\x7b`; stripping the empty tail yields the empty string and
stripping a head fragment keeps exactly its literal content. -/
theorem C6_clean_template (l : List Char) :
    (clean_template l = if pyEndsWith dollarBrace l
        then ((l.drop 1).dropLast).dropLast else (l.drop 1).dropLast) ∧
    clean_template [rbrace, backquote] = [] ∧
    clean_template (backquote :: ("Hello, ".data ++ dollarBrace)) = "Hello, ".data := by
  refine ⟨?_, by decide, by decide⟩
  cases hE : pyEndsWith dollarBrace l with
  | false => simpa [clean_template, hE] using drop_one_take_sub_one l
  | true => simpa [clean_template, hE] using drop_one_take_sub_two l

/-- C9: a source value that is neither `str`, nor `bytes`, nor an open
byte stream makes `tokenize` and `check_syntax` raise `ValueError`
carrying the offending value, and no subprocess is invoked. -/
theorem C9_value_error_no_subprocess (v ec : Nat) :
    tokenizeRun (PySrc.other v) ec = ([], .error (JsFault.valueError (PySrc.other v))) ∧
    checkSyntaxRun (PySrc.other v) ec = ([], .error (JsFault.valueError (PySrc.other v))) ∧
    JsEv.subprocess ∉ (tokenizeRun (PySrc.other v) ec).1 ∧
    JsEv.subprocess ∉ (checkSyntaxRun (PySrc.other v) ec).1 := by
  refine ⟨rfl, rfl, ?_, ?_⟩ <;> simp [tokenizeRun, checkSyntaxRun, safeEnter]

/-- C10: when given an already-open byte stream, the adapter never closes
that stream on any exit path (the exit status, hence success or exception,
is universally quantified), while the transient file it creates for `str`
and `bytes` inputs is always closed. -/
theorem C10_foreign_stream_not_closed (sid ec : Nat) (s : List Char) (b : List Nat) :
    (∀ j, JsEv.closeForeign j ∉ (tokenizeRun (PySrc.stream sid) ec).1) ∧
    (∀ j, JsEv.closeForeign j ∉ (checkSyntaxRun (PySrc.stream sid) ec).1) ∧
    JsEv.closeOwned ∉ (tokenizeRun (PySrc.stream sid) ec).1 ∧
    JsEv.closeOwned ∈ (tokenizeRun (PySrc.str s) ec).1 ∧
    JsEv.closeOwned ∈ (tokenizeRun (PySrc.bytes b) ec).1 ∧
    JsEv.closeOwned ∈ (checkSyntaxRun (PySrc.str s) ec).1 := by
  refine ⟨fun j => ?_, fun j => ?_, ?_, ?_, ?_, ?_⟩ <;>
    simp [tokenizeRun, checkSyntaxRun, safeEnter, safeExitEvents]

lemma toHexAux_eq_digits : ∀ fuel n : Nat, n ≤ fuel →
    toHexAux fuel n = ((Nat.digits 16 n).map hexDigitChar).reverse := by
  intro fuel
  induction fuel with
  | zero =>
    intro n hn
    have : n = 0 := by omega
    subst this
    simp [toHexAux]
  | succ f ih =>
    intro n hn
    by_cases h0 : n = 0
    · subst h0
      simp [toHexAux]
    · have hdiv : n / 16 ≤ f := by
        have := Nat.div_lt_self (Nat.pos_of_ne_zero h0) (by norm_num : 1 < 16)
        omega
      rw [toHexAux, if_neg h0, ih (n / 16) hdiv,
        Nat.digits_def' (by norm_num : 1 < 16) (Nat.pos_of_ne_zero h0)]
      simp

lemma toHexUpper_length_ge (n : Nat) (h : 0x10000 ≤ n) :
    5 ≤ (toHexUpper n).length := by
  rw [toHexUpper, toHexAux_eq_digits n n le_rfl]
  simp only [List.length_reverse, List.length_map]
  rw [Nat.digits_len 16 n (by norm_num) (by omega)]
  have h4 : 16 ^ 4 ≤ n := by norm_num; omega
  have := (Nat.pow_le_iff_le_log (by norm_num : 1 < 16) (by omega : n ≠ 0)).mp h4
  omega

/-- C7: for every Unicode scalar value, the codepoint label is `U+`
followed by the uppercase hexadecimal value, zero-padded to 4 digits below
`0x10000` and to 5 digits at or above it (the source space-pads to width 5
there, but a value at or above `0x10000` already has at least 5 hex
digits, so no fill character is ever emitted and the two paddings agree);
in particular `0x1F618` labels as `U+1F618` and `0x41` as `U+0041`. -/
theorem C7_uplus_padding (n : Nat) (h : n < 0x110000) :
    in_uplus_label n = uplus_label_spec n ∧
    in_uplus_label 0x1F618 = "U+1F618".data ∧
    in_uplus_label 0x41 = "U+0041".data := by
  refine ⟨?_, by decide, by decide⟩
  by_cases hb : 0xFFFF < n
  · have h5 := toHexUpper_length_ge n (by omega)
    simp [in_uplus_label, uplus_label_spec, hb, (by omega : 0x10000 ≤ n), pyPad,
      Nat.sub_eq_zero_of_le h5]
  · rw [in_uplus_label, uplus_label_spec, if_neg hb,
      if_neg (show ¬ 0x10000 ≤ n by omega)]

/-- C7 witness: the astral code point `0x1F618` is a Unicode scalar value
and its label agrees with the zero-padded spec rendering. -/
theorem C7_uplus_padding_witness :
    in_uplus_label 0x1F618 = uplus_label_spec 0x1F618 ∧
    in_uplus_label 0x41 = "U+0041".data :=
  ⟨(C7_uplus_padding 0x1F618 (by decide)).1, (C7_uplus_padding 0x41 (by decide)).2.2⟩

/-- C8 counterexample: `Template` is inside the defined alphabet, yet the
canonicalizer raises (the malformed-template fatal error) on the
two-character text `$\x7b` instead of returning a symbol, so "for every
kind inside the alphabet it returns a symbol without raising" fails as
stated. -/
theorem C8_counterexample :
    "Template" ∈ tokenAlphabet ∧
    stringify_lexeme ⟨"Template", dollarBrace⟩ =
      .error (StrFault.unhandledTemplate dollarBrace) := by
  refine ⟨by decide, ?_⟩
  rfl

/-- C8 (amended): every token kind outside the defined alphabet raises the
typed `UnsupportedTokenKind` error rather than returning a symbol; every
kind inside the alphabet other than `Template` returns a symbol without
raising; and `Template` returns a symbol provided its text has one of the
four valid delimiter shapes and length at least 2 (a malformed template
text instead raises the fatal malformed-template error). -/
theorem C8_amended_totality (name : String) (v : List Char) :
    (name ∉ tokenAlphabet →
      stringify_lexeme ⟨name, v⟩ = .error (StrFault.unsupportedTokenKind name)) ∧
    (name ∈ tokenAlphabet → name ≠ "Template" →
      ∃ s, stringify_lexeme ⟨name, v⟩ = .ok s) ∧
    (2 ≤ v.length →
      (pyStartsWith [backquote] v = true ∨ pyStartsWith [rbrace] v = true) →
      (pyEndsWith [backquote] v = true ∨ pyEndsWith dollarBrace v = true) →
      ∃ s, stringify_lexeme ⟨"Template", v⟩ = .ok s) := by
  refine ⟨fun h => ?_, fun h hne => ?_, fun hlen hs he => ?_⟩
  · unfold stringify_lexeme
    split <;> simp_all [tokenAlphabet]
  · simp only [tokenAlphabet, List.mem_cons, List.not_mem_nil, or_false] at h
    rcases h with h | h | h | h | h | h | h | h | h <;> subst h <;>
      first
        | exact ⟨_, rfl⟩
        | exact absurd rfl hne
  · have h2' : ¬ v.length < 2 := by omega
    rw [stringify_lexeme_template]
    rcases hs with hs | hs <;> rcases he with he | he
    · exact ⟨_, stringifyTemplate_standalone v h2' hs he⟩
    · exact ⟨_, stringifyTemplate_head v h2' hs he⟩
    · exact ⟨_, stringifyTemplate_tail v h2' hs he⟩
    · exact ⟨_, stringifyTemplate_middle v h2' hs he⟩

/-- C8 witness: an out-of-alphabet kind gets the typed error; an
in-alphabet non-Template kind and a well-shaped Template both return
symbols. -/
theorem C8_amended_witness :
    stringify_lexeme ⟨"Comment", []⟩ = .error (StrFault.unsupportedTokenKind "Comment") ∧
    (∃ s, stringify_lexeme ⟨"Numeric", ['3']⟩ = .ok s) ∧
    (∃ s, stringify_lexeme ⟨"Template", [backquote, backquote]⟩ = .ok s) :=
  ⟨(C8_amended_totality "Comment" []).1 (by decide),
   (C8_amended_totality "Numeric" ['3']).2.1 (by decide) (by decide),
   (C8_amended_totality "Template" [backquote, backquote]).2.2 (by decide)
     (Or.inl (by decide)) (Or.inl (by decide))⟩

/-- C1 counterexample: a cancellation signal that fires at the
`file_hash.decode` statement — after the dequeue and before any
acknowledgment, but outside both `try` blocks — propagates out of the
loop: the loop terminates (crashes) with the identifier neither published
to the error channel nor acknowledged, so it is absent from both. -/
theorem C1_counterexample :
    (runIteration ⟨some IntrPoint.atDecode, true, StepOutcome.ok, true, true⟩).2 =
      Control.crash ∧
    WorkerEv.pushError ∉
      (runIteration ⟨some IntrPoint.atDecode, true, StepOutcome.ok, true, true⟩).1 ∧
    WorkerEv.ack ∉
      (runIteration ⟨some IntrPoint.atDecode, true, StepOutcome.ok, true, true⟩).1 := by
  decide

set_option maxRecDepth 8192 in
/-- C1 (amended): when the cancellation signal fires during one of the
four statements of the guarded processing block — source fetch, parse,
persist, or profile-merge, which is exactly when the loop ends by the
mid-flight `KeyboardInterrupt` handler — the identifier is published to
the error channel and the item is left unacknowledged, satisfying the
error-channel-XOR-acknowledged guarantee.  A signal firing after the
dequeue but outside that block (at the decode/log statements or inside an
exception handler) instead escapes the loop with the identifier absent
from both. -/
theorem C1_amended_no_loss_in_guarded_block (e : IterEnv)
    (h : (runIteration e).2 = Control.breakFlight) :
    WorkerEv.pushError ∈ (runIteration e).1 ∧
    WorkerEv.ack ∉ (runIteration e).1 := by
  revert e
  decide

/-- C1 witness: a signal firing at the `parse_js` call publishes the
identifier to the error channel and leaves it unacknowledged. -/
theorem C1_amended_witness :
    WorkerEv.pushError ∈
      (runIteration ⟨some IntrPoint.atParse, true, StepOutcome.ok, true, true⟩).1 ∧
    WorkerEv.ack ∉
      (runIteration ⟨some IntrPoint.atParse, true, StepOutcome.ok, true, true⟩).1 :=
  C1_amended_no_loss_in_guarded_block
    ⟨some IntrPoint.atParse, true, StepOutcome.ok, true, true⟩ (by decide)

set_option maxRecDepth 8192 in
set_option synthInstance.maxSize 2048 in
/-- C3: in every iteration of the worker loop the dequeued item is
acknowledged at most once; on the syntax-error path the failure marker is
recorded strictly before the acknowledgment, and on the success path both
persistence operations (record parsed source, merge codepoint counts)
complete strictly before the acknowledgment. -/
theorem C3_ack_at_most_once_after_persist (e : IterEnv) :
    (runIteration e).1.count WorkerEv.ack ≤ 1 ∧
    (e.getSourceOk = true → e.parseRes = StepOutcome.parseErr →
      WorkerEv.ack ∈ (runIteration e).1 →
      WorkerEv.setFailure ∈
        (runIteration e).1.takeWhile (fun x => x != WorkerEv.ack)) ∧
    (e.parseRes = StepOutcome.ok → WorkerEv.ack ∈ (runIteration e).1 →
      WorkerEv.pushError ∉ (runIteration e).1 →
      WorkerEv.persistSuccess ∈
        (runIteration e).1.takeWhile (fun x => x != WorkerEv.ack) ∧
      WorkerEv.insertCount ∈
        (runIteration e).1.takeWhile (fun x => x != WorkerEv.ack)) := by
  revert e
  decide

/-- C3 witness: the clean success iteration acknowledges once, with both
persistence events strictly before the acknowledgment, and the clean
syntax-error iteration records the failure before acknowledging. -/
theorem C3_witness :
    (runIteration ⟨none, true, StepOutcome.ok, true, true⟩).1.count WorkerEv.ack ≤ 1 ∧
    WorkerEv.persistSuccess ∈
      (runIteration ⟨none, true, StepOutcome.ok, true, true⟩).1.takeWhile
        (fun x => x != WorkerEv.ack) ∧
    WorkerEv.setFailure ∈
      (runIteration ⟨none, true, StepOutcome.parseErr, true, true⟩).1.takeWhile
        (fun x => x != WorkerEv.ack) :=
  ⟨(C3_ack_at_most_once_after_persist ⟨none, true, StepOutcome.ok, true, true⟩).1,
   ((C3_ack_at_most_once_after_persist ⟨none, true, StepOutcome.ok, true, true⟩).2.2
      (by decide) (by decide) (by decide)).1,
   (C3_ack_at_most_once_after_persist ⟨none, true, StepOutcome.parseErr, true, true⟩).2.1
      (by decide) (by decide) (by decide)⟩
